import Mathlib

/-!
Verification of the invoice computation and submission pipeline of
`streamlit_app.py` (ATMinvoice).

The pipeline is embedded shallowly: numeric quantities are modelled as exact
rationals, the per-submission control flow (validation, PDF rendering, webhook
POST, Google Drive upload, download offer) is a pure function from the form
input, the sidebar configuration and the outcomes of the external calls to the
record of attempts, per-sink results and the user-visible messages.
-/

namespace ATMinvoice

/-- Opaque byte sequences (PDF bytes) are modelled as lists of naturals. -/
abbrev Bytes := List Nat

/-- Python truthiness of an optional byte string: `if pdf_bytes:` is false when
`pdf_bytes` is `None` or the empty byte string. -/
def truthyBytes : Option Bytes → Bool
  | none => false
  | some b => !b.isEmpty

/-- A calendar date, as held by the `st.date_input` widget. -/
structure PyDate where
  year : Nat
  month : Nat
  day : Nat
deriving DecidableEq, Repr

/-- The values read from the form widgets of `streamlit_app.py` (lines 61-115)
at submission time. Decimal widget values are modelled as exact rationals. -/
structure FormInput where
  color : String
  company_name : String
  customer_name : String
  customer_email : String
  customer_address : String
  customer_phone : String
  invoice_number : String
  invoice_date : PyDate
  sales_agent : String
  product_type : String
  quantity : Nat
  price_per_unit : ℚ
  tax_rate : ℚ
  notes : String
deriving DecidableEq, Repr

/-- `subtotal = price_per_unit * quantity` (line 105). -/
def subtotal (f : FormInput) : ℚ := f.price_per_unit * f.quantity

/-- `tax_amount = subtotal * (tax_rate / 100)` (line 106). -/
def tax_amount (f : FormInput) : ℚ := subtotal f * (f.tax_rate / 100)

/-- `total = subtotal + tax_amount` (line 107). -/
def total (f : FormInput) : ℚ := subtotal f + tax_amount f

/-- A convenient constructor fixing the non-financial fields, used for
concrete instances of the claims. -/
def mkFinInput (q : Nat) (p t : ℚ) : FormInput :=
  { color := "#FF6B35", company_name := "The ATM Agency",
    customer_name := "Jane Doe", customer_email := "",
    customer_address := "1 Main St", customer_phone := "",
    invoice_number := "INV-1", invoice_date := { year := 2026, month := 10, day := 12 },
    sales_agent := "", product_type := "Consulting Services",
    quantity := q, price_per_unit := p, tax_rate := t, notes := "" }

end ATMinvoice
namespace ATMinvoice

/-- Two-digit zero padding, as `strftime` does for `%m`/`%d`. -/
def pad2 (n : Nat) : String := if n < 10 then "0" ++ toString n else toString n

/-- `date.strftime("%Y-%m-%d")` (line 126). -/
def isoDate (d : PyDate) : String :=
  toString d.year ++ "-" ++ pad2 d.month ++ "-" ++ pad2 d.day

/-- `strftime("%B")`: the full month name. -/
def monthName : Nat → String
  | 1 => "January" | 2 => "February" | 3 => "March" | 4 => "April"
  | 5 => "May" | 6 => "June" | 7 => "July" | 8 => "August"
  | 9 => "September" | 10 => "October" | 11 => "November" | 12 => "December"
  | _ => ""

/-- `date.strftime("%B %d, %Y")` (line 167). -/
def longDate (d : PyDate) : String :=
  monthName d.month ++ " " ++ pad2 d.day ++ ", " ++ toString d.year

/-- The `company` sub-dict of `invoice_data` (lines 128-133). -/
structure CompanyInfo where
  name : String
  address : String
  phone : String
  color : String
deriving DecidableEq, Repr

/-- The `customer` sub-dict of `invoice_data` (lines 134-139). -/
structure CustomerInfo where
  name : String
  email : String
  address : String
  phone : String
deriving DecidableEq, Repr

/-- One element of `invoice_data["items"]` (lines 140-147). -/
structure LineItem where
  product_type : String
  quantity : Nat
  price_per_unit : ℚ
  subtotal : ℚ
deriving DecidableEq, Repr

/-- The `financial` sub-dict of `invoice_data` (lines 148-154). -/
structure Financial where
  subtotal : ℚ
  tax_rate : ℚ
  tax_amount : ℚ
  total : ℚ
  currency : String
deriving DecidableEq, Repr

/-- The `invoice_data` dict (lines 124-157): the canonical InvoiceRecord. -/
structure InvoiceRecord where
  invoice_number : String
  invoice_date : String
  sales_agent : String
  company : CompanyInfo
  customer : CustomerInfo
  items : List LineItem
  financial : Financial
  notes : String
  generated_at : String
deriving DecidableEq, Repr

/-- Construction of `invoice_data` from the form values (lines 124-157).
`now_iso` is the wall-clock reading `datetime.now().isoformat()`. -/
def buildInvoiceData (f : FormInput) (now_iso : String) : InvoiceRecord :=
  { invoice_number := f.invoice_number
    invoice_date := isoDate f.invoice_date
    sales_agent := if f.sales_agent = "" then "N/A" else f.sales_agent
    company := { name := f.company_name
                 address := "4218 Blackwell Street, Anchorage, Alaska"
                 phone := "907-334-3873"
                 color := f.color }
    customer := { name := f.customer_name
                  email := f.customer_email
                  address := f.customer_address
                  phone := f.customer_phone }
    items := [{ product_type := f.product_type
                quantity := f.quantity
                price_per_unit := f.price_per_unit
                subtotal := subtotal f }]
    financial := { subtotal := subtotal f
                   tax_rate := f.tax_rate
                   tax_amount := tax_amount f
                   total := total f
                   currency := "USD" }
    notes := f.notes
    generated_at := now_iso }

/-- The standard base64 alphabet used by `base64.b64encode`. -/
def base64Alphabet : List Char :=
  "ABCDEFGHIJKLMNOPQRSTUVWXYZabcdefghijklmnopqrstuvwxyz0123456789+/".data

/-- The base64 digit for a 6-bit value. -/
def b64Char (n : Nat) : Char := base64Alphabet.getD n 'A'

/-- Base64-encode a byte list three bytes at a time, with `=` padding
(`base64.b64encode(pdf_bytes)`, line 193). -/
def b64Chunks : Bytes → List Char
  | [] => []
  | [a] => [b64Char (a / 4), b64Char (a % 4 * 16), '=', '=']
  | [a, b] => [b64Char (a / 4), b64Char (a % 4 * 16 + b / 16), b64Char (b % 16 * 4), '=']
  | a :: b :: c :: rest =>
      b64Char (a / 4) :: b64Char (a % 4 * 16 + b / 16) ::
        b64Char (b % 16 * 4 + c / 64) :: b64Char (c % 64) :: b64Chunks rest

/-- `base64.b64encode(pdf_bytes).decode('utf-8')` (line 193). -/
def base64Encode (bs : Bytes) : String := String.mk (b64Chunks bs)

/-- `f"invoice_{invoice_number}.pdf"` (lines 199, 243, 275). -/
def pdfFilename (invoice_number : String) : String :=
  "invoice_" ++ invoice_number ++ ".pdf"

/-- Per-sink outcome status, as the spec's `SinkResult.status`. -/
inductive SinkStatus
  | success
  | failed
  | skipped
deriving DecidableEq, Repr

/-- Per-sink outcome: name, status, and the diagnostic detail surfaced to the
user for that sink. -/
structure SinkResult where
  sink_name : String
  status : SinkStatus
  detail : String
deriving DecidableEq, Repr

/-- Outcome of the webhook HTTP POST: a response with status code and body
text, a `requests.exceptions.Timeout`, or another
`requests.exceptions.RequestException` with its message. -/
inductive HttpOutcome
  | response (status_code : Nat) (text : String)
  | timeout
  | transportError (msg : String)
deriving DecidableEq, Repr

/-- The `pdf` field added to the webhook payload (lines 196-203). -/
structure PdfAttachment where
  filename : String
  data : String
  mime_type : String
deriving DecidableEq, Repr

/-- The single `requests.post` call of the webhook block (lines 205-210):
URL, JSON payload (record plus optional document attachment) and the
`timeout=` argument in seconds. -/
structure WebhookRequest where
  url : String
  record : InvoiceRecord
  pdf : Option PdfAttachment
  timeoutSeconds : Nat
deriving DecidableEq, Repr

/-- The Google Drive `files().create` call (lines 242-258): file name,
parent folder list, MIME type and raw bytes. -/
structure DriveUploadRequest where
  name : String
  parents : List String
  mimetype : String
  data : Bytes
deriving DecidableEq, Repr

/-- The `st.download_button` offer (lines 272-278). -/
structure DownloadOffer where
  file_name : String
  data : Bytes
  mime : String
deriving DecidableEq, Repr

/-- Sidebar configuration: the webhook URL text input, whether
`'gdrive_credentials' in st.session_state`, and the folder-ID text input. -/
structure Env where
  webhook_url : String
  gdrive_credentials : Bool
  gdrive_folder_id : String
deriving DecidableEq, Repr

/-- Outcomes of the three external calls a submission can make: `pdfkit`
rendering (exception message or bytes), the webhook POST, and the Drive
upload (exception message, or file id and `webViewLink`). -/
structure ExternalOutcomes where
  render : Except String Bytes
  http : HttpOutcome
  drive : Except String (String × String)
deriving Repr

/-- The webhook POST is made iff `webhook_url and pdf_bytes` is truthy
(line 189); the payload always embeds the base64 document (lines 196-203)
and the call passes `timeout=30` (line 209). -/
def webhookRequest (env : Env) (record : InvoiceRecord)
    (pdf_bytes : Option Bytes) : Option WebhookRequest :=
  if env.webhook_url ≠ "" ∧ truthyBytes pdf_bytes then
    some { url := env.webhook_url
           record := record
           pdf := some { filename := pdfFilename record.invoice_number
                         data := base64Encode (pdf_bytes.getD [])
                         mime_type := "application/pdf" }
           timeoutSeconds := 30 }
  else none

/-- Handling of the webhook POST outcome (lines 212-227): statuses 200, 201
and 202 succeed; any other status fails with the response body as detail; a
timeout and any other `RequestException` fail with their messages. -/
def webhookResult (o : HttpOutcome) : SinkResult :=
  match o with
  | .response code text =>
      if code ∈ [200, 201, 202] then
        { sink_name := "n8n webhook"
          status := .success
          detail := "✅ Successfully sent to n8n webhook! (Status: " ++ toString code ++ ")" }
      else
        { sink_name := "n8n webhook", status := .failed, detail := text }
  | .timeout =>
      { sink_name := "n8n webhook"
        status := .failed
        detail := "⏱️ Webhook request timed out. Please check your n8n instance." }
  | .transportError msg =>
      { sink_name := "n8n webhook"
        status := .failed
        detail := "❌ Error sending to webhook: " ++ msg }

/-- The Drive upload is made iff
`pdf_bytes and 'gdrive_credentials' in st.session_state and gdrive_folder_id`
is truthy (line 229); it uploads the bytes as `invoice_<n>.pdf`,
MIME `application/pdf`, into the configured folder (lines 242-258). -/
def driveUploadRequest (env : Env) (invoice_number : String)
    (pdf_bytes : Option Bytes) : Option DriveUploadRequest :=
  if truthyBytes pdf_bytes ∧ env.gdrive_credentials ∧ env.gdrive_folder_id ≠ "" then
    some { name := pdfFilename invoice_number
           parents := [env.gdrive_folder_id]
           mimetype := "application/pdf"
           data := pdf_bytes.getD [] }
  else none

/-- Handling of the Drive upload outcome (lines 260-265): success reports the
file ID, any exception fails with its message. -/
def driveResult (o : Except String (String × String)) : SinkResult :=
  match o with
  | .ok r =>
      { sink_name := "Google Drive"
        status := .success
        detail := "✅ Uploaded to Google Drive! File ID: " ++ r.1 }
  | .error msg =>
      { sink_name := "Google Drive"
        status := .failed
        detail := "❌ Error uploading to Google Drive: " ++ msg }

/-- Everything a non-rejected submission produces: the record, the rendered
bytes if any, the two sink attempts with their results, the `webViewLink`
shown on Drive success (line 261), and the download offer. -/
structure Processed where
  record : InvoiceRecord
  pdf_bytes : Option Bytes
  webhookAttempt : Option WebhookRequest
  webhookReport : Option SinkResult
  driveAttempt : Option DriveUploadRequest
  driveReport : Option SinkResult
  driveLink : Option String
  download : Option DownloadOffer
deriving Repr

/-- Result of a form submission: rejected by validation (line 121) with the
error message, or processed. -/
inductive SubmitOutcome
  | rejected (errorMsg : String)
  | processed (p : Processed)
deriving Repr

/-- The `if submit:` handler (lines 118-284): validate the required fields,
build `invoice_data`, take the rendering outcome, attempt the webhook and
Drive sinks under their guards, and offer the download when bytes exist. -/
def processSubmission (env : Env) (f : FormInput) (now_iso : String)
    (ext : ExternalOutcomes) : SubmitOutcome :=
  if f.customer_name = "" ∨ f.customer_address = "" then
    .rejected "⚠️ Please fill in all required fields marked with *"
  else
    let record := buildInvoiceData f now_iso
    let pdf_bytes : Option Bytes := ext.render.toOption
    let wreq := webhookRequest env record pdf_bytes
    let dreq := driveUploadRequest env f.invoice_number pdf_bytes
    .processed
      { record := record
        pdf_bytes := pdf_bytes
        webhookAttempt := wreq
        webhookReport := wreq.map (fun _ => webhookResult ext.http)
        driveAttempt := dreq
        driveReport := dreq.map (fun _ => driveResult ext.drive)
        driveLink := dreq.bind (fun _ =>
          match ext.drive with
          | .ok r => some r.2
          | .error _ => none)
        download :=
          if truthyBytes pdf_bytes then
            some { file_name := pdfFilename f.invoice_number
                   data := pdf_bytes.getD []
                   mime := "application/pdf" }
          else none }

/-- The per-sink results of a submission in the order the source attempts the
sinks: the webhook block (line 189) before the Drive block (line 229). -/
def Processed.sinkResults (p : Processed) : List SinkResult :=
  p.webhookReport.toList ++ p.driveReport.toList

/-- Names of the sinks actually attempted by a submission outcome. -/
def attemptedSinks : SubmitOutcome → List String
  | .rejected _ => []
  | .processed p =>
      (p.webhookAttempt.map fun _ => "n8n webhook").toList ++
        (p.driveAttempt.map fun _ => "Google Drive").toList

/-- The webhook sink result of an outcome, when one exists. -/
def webhookReportOf : SubmitOutcome → Option SinkResult
  | .rejected _ => none
  | .processed p => p.webhookReport

/-- The Drive sink result of an outcome, when one exists. -/
def driveReportOf : SubmitOutcome → Option SinkResult
  | .rejected _ => none
  | .processed p => p.driveReport

/-- The webhook POST of an outcome, when one was made. -/
def webhookAttemptOf : SubmitOutcome → Option WebhookRequest
  | .rejected _ => none
  | .processed p => p.webhookAttempt

/-- The Drive upload call of an outcome, when one was made. -/
def driveAttemptOf : SubmitOutcome → Option DriveUploadRequest
  | .rejected _ => none
  | .processed p => p.driveAttempt

/-- The Drive `webViewLink` surfaced by an outcome, when one exists. -/
def driveLinkOf : SubmitOutcome → Option String
  | .rejected _ => none
  | .processed p => p.driveLink

/-- The download offer of an outcome, when one exists. -/
def downloadOf : SubmitOutcome → Option DownloadOffer
  | .rejected _ => none
  | .processed p => p.download

/-- The ordered per-sink results of an outcome. -/
def sinkResultsOf : SubmitOutcome → List SinkResult
  | .rejected _ => []
  | .processed p => p.sinkResults

/-- A fully configured sidebar, for concrete instances. -/
def envBoth : Env :=
  { webhook_url := "https://n8n.example.com/webhook/invoice"
    gdrive_credentials := true
    gdrive_folder_id := "1ABC123xyz" }

/-- External outcomes where PDF rendering raised an exception. -/
def extRenderFail : ExternalOutcomes :=
  { render := .error "No wkhtmltopdf executable found"
    http := .response 200 ""
    drive := .ok ("file-id-1", "https://drive.example.com/view/file-id-1") }

/-- External outcomes where everything succeeded; the rendered bytes are the
PDF magic header. -/
def extAllOk : ExternalOutcomes :=
  { render := .ok [37, 80, 68, 70]
    http := .response 200 "ok"
    drive := .ok ("file-id-1", "https://drive.example.com/view/file-id-1") }

/-- A form input failing validation: the customer name is empty. -/
def noNameInput : FormInput := { mkFinInput 2 500 10 with customer_name := "" }

/-- The webhook POST produced by the all-success concrete submission. -/
def demoWebhookReq : WebhookRequest :=
  { url := "https://n8n.example.com/webhook/invoice"
    record := buildInvoiceData (mkFinInput 2 500 10) "2026-10-12T10:00:00"
    pdf := some { filename := pdfFilename "INV-1"
                  data := base64Encode [37, 80, 68, 70]
                  mime_type := "application/pdf" }
    timeoutSeconds := 30 }

/-- Round a rational to the nearest integer, ties to even: the rounding of
Python's fixed-point formatting of its (here exactly modelled) float
values. -/
def roundHalfEven (q : ℚ) : ℤ :=
  let f := q.floor
  let r := q - f
  if r < 1/2 then f
  else if 1/2 < r then f + 1
  else if f % 2 = 0 then f else f + 1

/-- Insert a comma after every three characters of a reversed digit list (the
`,` option of Python's format mini-language). -/
def commaGroup : List Char → List Char
  | [] => []
  | [a] => [a]
  | [a, b] => [a, b]
  | [a, b, c] => [a, b, c]
  | a :: b :: c :: d :: rest => a :: b :: c :: ',' :: commaGroup (d :: rest)

/-- Python's `f"{x:,.2f}"` (lines 175-179): fixed-point with two decimal
places and thousands separators. -/
def formatCommas2 (q : ℚ) : String :=
  let cents := roundHalfEven (q * 100)
  let sign := if cents < 0 then "-" else ""
  let n := cents.natAbs
  let intPart := String.mk (commaGroup (toString (n / 100)).data.reverse).reverse
  sign ++ intPart ++ "." ++ pad2 (n % 100)

/-- Python's `f"{tax_rate}"` (line 177): the decimal repr of the value,
abstracted as the exact rational's repr. -/
def ratRepr (q : ℚ) : String := toString q

/-- The keyword arguments passed to `template.render` (lines 163-181): every
currency amount arrives as an already formatted string. -/
structure TemplateContext where
  color : String
  company_name : String
  invoice_number : String
  invoice_date : String
  customer_name : String
  customer_address : String
  customer_email : String
  customer_phone : String
  sales_agent : String
  product_type : String
  quantity : Nat
  price_per_unit : String
  subtotal : String
  tax_rate : String
  tax_amount : String
  total : String
  notes : String
deriving DecidableEq, Repr

/-- The `template.render(...)` call's arguments (lines 163-181). -/
def templateContext (f : FormInput) : TemplateContext :=
  { color := f.color
    company_name := f.company_name
    invoice_number := f.invoice_number
    invoice_date := longDate f.invoice_date
    customer_name := f.customer_name
    customer_address := f.customer_address
    customer_email := f.customer_email
    customer_phone := f.customer_phone
    sales_agent := if f.sales_agent = "" then "N/A" else f.sales_agent
    product_type := f.product_type
    quantity := f.quantity
    price_per_unit := formatCommas2 f.price_per_unit
    subtotal := formatCommas2 (subtotal f)
    tax_rate := ratRepr f.tax_rate
    tax_amount := formatCommas2 (tax_amount f)
    total := formatCommas2 (total f)
    notes := f.notes }

/-- Modelled from the spec: the HTML template `invoice_template.html` belongs
to the repository but is not under `src/`; per the spec the renderer
substitutes the pre-formatted record fields into a fixed template and
"performs no arithmetic". It is embedded as plain concatenation of fixed
template fragments with the context's fields — the only operation applied to
the currency strings. -/
def renderInvoiceHtml (c : TemplateContext) : String :=
  "<html><body style=color:" ++ c.color ++ ">" ++ c.company_name ++ " " ++
    c.invoice_number ++ " " ++ c.invoice_date ++ " " ++ c.customer_name ++ " " ++
    c.customer_address ++ " " ++ c.customer_email ++ " " ++ c.customer_phone ++
    " " ++ c.sales_agent ++ " " ++ c.product_type ++ " " ++ toString c.quantity ++
    " $" ++ c.price_per_unit ++ " $" ++ c.subtotal ++ " " ++ c.tax_rate ++
    "% $" ++ c.tax_amount ++ " $" ++ c.total ++ " " ++ c.notes ++
    "</body></html>"

/-- A JSON value. Numeric payloads are exact rationals (the floats of the
serialized record are modelled exactly). -/
inductive Json
  | str (s : String)
  | num (q : ℚ)
  | arr (xs : List Json)
  | obj (fields : List (String × Json))

/-- Look a key up in a JSON object. -/
def Json.getField : Json → String → Option Json
  | .obj fs, k => fs.lookup k
  | _, _ => none

/-- Read a JSON string. -/
def Json.asString : Json → Option String
  | .str s => some s
  | _ => none

/-- Read a JSON number. -/
def Json.asNum : Json → Option ℚ
  | .num q => some q
  | _ => none

/-- Read a JSON number as a non-negative integer. -/
def Json.asNat (j : Json) : Option Nat :=
  j.asNum.bind fun q =>
    if q.den = 1 ∧ 0 ≤ q.num then some q.num.toNat else none

/-- JSON shape of the `company` sub-dict (lines 128-133, spec section 6). -/
def CompanyInfo.toJson (c : CompanyInfo) : Json :=
  .obj [("name", .str c.name), ("address", .str c.address),
        ("phone", .str c.phone), ("color", .str c.color)]

/-- JSON shape of the `customer` sub-dict (lines 134-139, spec section 6). -/
def CustomerInfo.toJson (c : CustomerInfo) : Json :=
  .obj [("name", .str c.name), ("email", .str c.email),
        ("address", .str c.address), ("phone", .str c.phone)]

/-- JSON shape of one `items` element (lines 140-147, spec section 6). -/
def LineItem.toJson (it : LineItem) : Json :=
  .obj [("product_type", .str it.product_type),
        ("quantity", .num it.quantity),
        ("price_per_unit", .num it.price_per_unit),
        ("subtotal", .num it.subtotal)]

/-- JSON shape of the `financial` sub-dict (lines 148-154, spec section 6). -/
def Financial.toJson (fin : Financial) : Json :=
  .obj [("subtotal", .num fin.subtotal), ("tax_rate", .num fin.tax_rate),
        ("tax_amount", .num fin.tax_amount), ("total", .num fin.total),
        ("currency", .str fin.currency)]

/-- The JSON serialization of `invoice_data` (lines 124-157, spec
section 6). -/
def InvoiceRecord.toJson (r : InvoiceRecord) : Json :=
  .obj [("invoice_number", .str r.invoice_number),
        ("invoice_date", .str r.invoice_date),
        ("sales_agent", .str r.sales_agent),
        ("company", r.company.toJson),
        ("customer", r.customer.toJson),
        ("items", .arr (r.items.map LineItem.toJson)),
        ("financial", r.financial.toJson),
        ("notes", .str r.notes),
        ("generated_at", .str r.generated_at)]

/-- Modelled from the spec: the source only serializes the record (its
consumers deserialize); the decoder reads the record serialization shape of
spec section 6 field for field. -/
def CompanyInfo.fromJson (j : Json) : Option CompanyInfo := do
  let name ← (j.getField "name").bind Json.asString
  let address ← (j.getField "address").bind Json.asString
  let phone ← (j.getField "phone").bind Json.asString
  let color ← (j.getField "color").bind Json.asString
  pure { name := name, address := address, phone := phone, color := color }

/-- Modelled from the spec: decoder for the `customer` sub-object of spec
section 6. -/
def CustomerInfo.fromJson (j : Json) : Option CustomerInfo := do
  let name ← (j.getField "name").bind Json.asString
  let email ← (j.getField "email").bind Json.asString
  let address ← (j.getField "address").bind Json.asString
  let phone ← (j.getField "phone").bind Json.asString
  pure { name := name, email := email, address := address, phone := phone }

/-- Modelled from the spec: decoder for one `items` element of spec
section 6. -/
def LineItem.fromJson (j : Json) : Option LineItem := do
  let product_type ← (j.getField "product_type").bind Json.asString
  let quantity ← (j.getField "quantity").bind Json.asNat
  let price_per_unit ← (j.getField "price_per_unit").bind Json.asNum
  let st ← (j.getField "subtotal").bind Json.asNum
  pure { product_type := product_type, quantity := quantity,
         price_per_unit := price_per_unit, subtotal := st }

/-- Modelled from the spec: decoder for the `items` array of spec
section 6. -/
def decodeItems : List Json → Option (List LineItem)
  | [] => some []
  | j :: js => do
      let it ← LineItem.fromJson j
      let rest ← decodeItems js
      pure (it :: rest)

/-- Modelled from the spec: decoder for the `financial` sub-object of spec
section 6. -/
def Financial.fromJson (j : Json) : Option Financial := do
  let st ← (j.getField "subtotal").bind Json.asNum
  let tax_rate ← (j.getField "tax_rate").bind Json.asNum
  let tax_amount ← (j.getField "tax_amount").bind Json.asNum
  let tot ← (j.getField "total").bind Json.asNum
  let currency ← (j.getField "currency").bind Json.asString
  pure { subtotal := st, tax_rate := tax_rate, tax_amount := tax_amount,
         total := tot, currency := currency }

/-- Modelled from the spec: decoder for the full record serialization shape
of spec section 6. -/
def InvoiceRecord.fromJson (j : Json) : Option InvoiceRecord := do
  let invoice_number ← (j.getField "invoice_number").bind Json.asString
  let invoice_date ← (j.getField "invoice_date").bind Json.asString
  let sales_agent ← (j.getField "sales_agent").bind Json.asString
  let company ← (j.getField "company").bind (fun x => CompanyInfo.fromJson x)
  let customer ← (j.getField "customer").bind (fun x => CustomerInfo.fromJson x)
  let itemsJ ← j.getField "items"
  let items ← match itemsJ with
    | .arr xs => decodeItems xs
    | _ => none
  let financial ← (j.getField "financial").bind (fun x => Financial.fromJson x)
  let notes ← (j.getField "notes").bind Json.asString
  let generated_at ← (j.getField "generated_at").bind Json.asString
  pure { invoice_number := invoice_number, invoice_date := invoice_date,
         sales_agent := sales_agent, company := company, customer := customer,
         items := items, financial := financial, notes := notes,
         generated_at := generated_at }

/-- The three numeric widget values before the widget constraints are
applied. -/
structure RawWidgetValues where
  quantity : Nat
  price_per_unit : ℚ
  tax_rate : ℚ
deriving DecidableEq, Repr

/-- A `number_input`/`slider` widget admits exactly the values within its
configured `min_value`/`max_value`. -/
def widgetAccepts (minv maxv v : ℚ) : Bool :=
  decide (minv ≤ v) && decide (v ≤ maxv)

/-- The public input boundary for the numeric fields, with the widget
parameters of the source verbatim: `quantity` in [1, 1000] (line 91),
`price_per_unit` in [0.01, 1000000.00] (lines 93-100), `tax_rate` in
[0.0, 20.0] (line 103). Values a widget rejects never reach submission. -/
def formBoundary (r : RawWidgetValues) : Option RawWidgetValues :=
  if widgetAccepts 1 1000 (r.quantity : ℚ) ∧
      widgetAccepts (1/100) 1000000 r.price_per_unit ∧
      widgetAccepts 0 20 r.tax_rate then
    some r
  else none

end ATMinvoice

open ATMinvoice

/-- C1: for every input with `price_per_unit ≥ 0`, `quantity ≥ 1` and
`tax_rate ∈ [0,20]`, the financial calculator returns
`subtotal = price_per_unit * quantity`, `tax_amount = subtotal * tax_rate / 100`,
`total = subtotal + tax_amount` and `total ≥ subtotal`; in particular the input
`(price_per_unit = 500, quantity = 2, tax_rate = 10)` yields
`subtotal = 1000`, `tax_amount = 100`, `total = 1100`. -/
theorem financial_calculator_correct (f : FormInput)
    (hp : 0 ≤ f.price_per_unit) (hq : 1 ≤ f.quantity)
    (ht0 : 0 ≤ f.tax_rate) (ht1 : f.tax_rate ≤ 20) :
    subtotal f = f.price_per_unit * f.quantity ∧
    tax_amount f = subtotal f * f.tax_rate / 100 ∧
    total f = subtotal f + tax_amount f ∧
    subtotal f ≤ total f ∧
    (subtotal (mkFinInput 2 500 10) = 1000 ∧
      tax_amount (mkFinInput 2 500 10) = 100 ∧
      total (mkFinInput 2 500 10) = 1100) := by
  refine ⟨rfl, by rw [tax_amount, mul_div_assoc], rfl, ?_, by norm_num [subtotal, tax_amount, total, mkFinInput]⟩
  have hsub : (0 : ℚ) ≤ subtotal f := by
    have hq' : (0 : ℚ) ≤ (f.quantity : ℚ) := by positivity
    exact mul_nonneg hp hq'
  have htax : (0 : ℚ) ≤ tax_amount f := by
    apply mul_nonneg hsub
    positivity
  calc subtotal f = subtotal f + 0 := by ring
    _ ≤ subtotal f + tax_amount f := by linarith
    _ = total f := rfl

/-- Witness for C1 at the concrete input of the spec's end-to-end example. -/
theorem financial_calculator_correct_witness :
    subtotal (mkFinInput 2 500 10) = 1000 ∧
      tax_amount (mkFinInput 2 500 10) = 100 ∧
      total (mkFinInput 2 500 10) = 1100 :=
  (financial_calculator_correct (mkFinInput 2 500 10) (by norm_num [mkFinInput])
    (by norm_num [mkFinInput]) (by norm_num [mkFinInput])
    (by norm_num [mkFinInput])).2.2.2.2

/-- C2: record construction fails — rejecting with the validation error
message and attempting no sink — if and only if the customer name or the
customer address is empty; otherwise the submission is processed. -/
theorem validation_gate (env : Env) (f : FormInput) (now_iso : String)
    (ext : ExternalOutcomes) :
    ((∃ msg, processSubmission env f now_iso ext = .rejected msg) ↔
      f.customer_name = "" ∨ f.customer_address = "") ∧
    (f.customer_name = "" ∨ f.customer_address = "" →
      processSubmission env f now_iso ext =
        .rejected "⚠️ Please fill in all required fields marked with *" ∧
      attemptedSinks (processSubmission env f now_iso ext) = [] ∧
      sinkResultsOf (processSubmission env f now_iso ext) = []) := by
  by_cases h : f.customer_name = "" ∨ f.customer_address = ""
  · refine ⟨⟨fun _ => h, fun _ => ?_⟩, fun _ => ?_⟩
    · exact ⟨_, by rw [processSubmission, if_pos h]⟩
    · rw [processSubmission, if_pos h]
      exact ⟨rfl, rfl, rfl⟩
  · refine ⟨⟨fun ⟨msg, hm⟩ => ?_, fun hc => absurd hc h⟩, fun hc => absurd hc h⟩
    rw [processSubmission, if_neg h] at hm
    exact SubmitOutcome.noConfusion hm

/-- Witness for C2: an input with empty customer name is rejected with the
validation message and no sink attempt. -/
theorem validation_gate_witness :
    processSubmission envBoth noNameInput "2026-10-12T10:00:00" extAllOk =
      .rejected "⚠️ Please fill in all required fields marked with *" ∧
    attemptedSinks (processSubmission envBoth noNameInput "2026-10-12T10:00:00" extAllOk) = [] ∧
    sinkResultsOf (processSubmission envBoth noNameInput "2026-10-12T10:00:00" extAllOk) = [] :=
  (validation_gate envBoth noNameInput "2026-10-12T10:00:00" extAllOk).2 (Or.inl rfl)

/-- C3 counterexample: with webhook and Drive fully configured, a valid input
and a failed PDF render, neither document-requiring sink yields any result at
all — in particular no `skipped` result with detail "document unavailable",
which the claim asserts. -/
theorem document_unavailable_counterexample :
    ¬ ((∃ r, webhookReportOf (processSubmission envBoth (mkFinInput 2 500 10)
          "2026-10-12T10:00:00" extRenderFail) = some r ∧
        r.status = .skipped ∧ r.detail = "document unavailable") ∨
      (∃ r, driveReportOf (processSubmission envBoth (mkFinInput 2 500 10)
          "2026-10-12T10:00:00" extRenderFail) = some r ∧
        r.status = .skipped ∧ r.detail = "document unavailable")) := by
  have hw : webhookReportOf (processSubmission envBoth (mkFinInput 2 500 10)
      "2026-10-12T10:00:00" extRenderFail) = none := rfl
  have hd : driveReportOf (processSubmission envBoth (mkFinInput 2 500 10)
      "2026-10-12T10:00:00" extRenderFail) = none := rfl
  rintro (⟨r, hr, -⟩ | ⟨r, hr, -⟩)
  · rw [hw] at hr; exact Option.noConfusion hr
  · rw [hd] at hr; exact Option.noConfusion hr

/-- C3 amended: when rendering produced no (truthy) document, the
document-requiring sinks — the webhook and the Drive upload — are never
attempted; however, the code records no result for them at all (it emits no
`skipped` result and no "document unavailable" detail; the blocks are simply
not entered). -/
theorem requires_document_never_attempted (env : Env) (f : FormInput)
    (now_iso : String) (ext : ExternalOutcomes)
    (hdoc : truthyBytes ext.render.toOption = false) :
    attemptedSinks (processSubmission env f now_iso ext) = [] ∧
    webhookAttemptOf (processSubmission env f now_iso ext) = none ∧
    driveAttemptOf (processSubmission env f now_iso ext) = none ∧
    webhookReportOf (processSubmission env f now_iso ext) = none ∧
    driveReportOf (processSubmission env f now_iso ext) = none := by
  by_cases h : f.customer_name = "" ∨ f.customer_address = ""
  · rw [processSubmission, if_pos h]
    exact ⟨rfl, rfl, rfl, rfl, rfl⟩
  · rw [processSubmission, if_neg h]
    simp [attemptedSinks, webhookAttemptOf, driveAttemptOf, webhookReportOf,
      driveReportOf, webhookRequest, driveUploadRequest, hdoc]

/-- Witness for C3's amended statement at the concrete failed-render
submission. -/
theorem requires_document_never_attempted_witness :
    attemptedSinks (processSubmission envBoth (mkFinInput 2 500 10)
      "2026-10-12T10:00:00" extRenderFail) = [] ∧
    webhookAttemptOf (processSubmission envBoth (mkFinInput 2 500 10)
      "2026-10-12T10:00:00" extRenderFail) = none ∧
    driveAttemptOf (processSubmission envBoth (mkFinInput 2 500 10)
      "2026-10-12T10:00:00" extRenderFail) = none ∧
    webhookReportOf (processSubmission envBoth (mkFinInput 2 500 10)
      "2026-10-12T10:00:00" extRenderFail) = none ∧
    driveReportOf (processSubmission envBoth (mkFinInput 2 500 10)
      "2026-10-12T10:00:00" extRenderFail) = none :=
  requires_document_never_attempted envBoth (mkFinInput 2 500 10)
    "2026-10-12T10:00:00" extRenderFail rfl

/-- C4: webhook outcome handling: statuses 200, 201 and 202 yield success;
any other status yields `failed` with the response body as detail; a timeout
yields `failed` with a fixed timeout message that differs from every
transport-error detail; any other transport error yields `failed` with the
error message in its detail. -/
theorem webhook_outcome_handling (code : Nat) (text msg : String) :
    (code ∈ [200, 201, 202] →
      (webhookResult (.response code text)).status = .success) ∧
    (code ∉ [200, 201, 202] →
      webhookResult (.response code text) =
        { sink_name := "n8n webhook", status := .failed, detail := text }) ∧
    webhookResult .timeout =
      { sink_name := "n8n webhook", status := .failed,
        detail := "⏱️ Webhook request timed out. Please check your n8n instance." } ∧
    webhookResult (.transportError msg) =
      { sink_name := "n8n webhook", status := .failed,
        detail := "❌ Error sending to webhook: " ++ msg } ∧
    (webhookResult .timeout).detail ≠ (webhookResult (.transportError msg)).detail := by
  refine ⟨?_, ?_, rfl, rfl, ?_⟩
  · intro h
    simp [webhookResult, h]
  · intro h
    simp [webhookResult, h]
  · simp only [webhookResult]
    intro h
    have h2 := congrArg (fun s : String => s.data.head?) h
    simp [String.data_append] at h2

/-- Witness for C4: a 500 response fails with the body as detail, and the
timeout detail differs from a concrete transport-error detail. -/
theorem webhook_outcome_handling_witness :
    webhookResult (.response 500 "Internal Server Error") =
      { sink_name := "n8n webhook", status := .failed,
        detail := "Internal Server Error" } ∧
    (webhookResult .timeout).detail ≠
      (webhookResult (.transportError "Connection refused")).detail :=
  ⟨(webhook_outcome_handling 500 "Internal Server Error" "Connection refused").2.1
      (by decide),
    (webhook_outcome_handling 500 "Internal Server Error" "Connection refused").2.2.2.2⟩

/-- C5: sinks are attempted in the fixed order webhook before Drive, and sink
handling is independent: which sinks are attempted never depends on either
sink's outcome, the Drive result and the download offer do not depend on the
webhook outcome, and the webhook result does not depend on the Drive outcome
(each sink's result is a total function of its own outcome, so no failure
crosses from one sink's handling into another's). -/
theorem sink_independence (env : Env) (f : FormInput) (now_iso : String)
    (render : Except String Bytes) (h1 h2 : HttpOutcome)
    (d1 d2 : Except String (String × String)) :
    sinkResultsOf (processSubmission env f now_iso ⟨render, h1, d1⟩) =
      (webhookReportOf (processSubmission env f now_iso ⟨render, h1, d1⟩)).toList ++
        (driveReportOf (processSubmission env f now_iso ⟨render, h1, d1⟩)).toList ∧
    attemptedSinks (processSubmission env f now_iso ⟨render, h1, d1⟩) =
      attemptedSinks (processSubmission env f now_iso ⟨render, h2, d2⟩) ∧
    driveReportOf (processSubmission env f now_iso ⟨render, h1, d1⟩) =
      driveReportOf (processSubmission env f now_iso ⟨render, h2, d1⟩) ∧
    downloadOf (processSubmission env f now_iso ⟨render, h1, d1⟩) =
      downloadOf (processSubmission env f now_iso ⟨render, h2, d2⟩) ∧
    webhookReportOf (processSubmission env f now_iso ⟨render, h1, d1⟩) =
      webhookReportOf (processSubmission env f now_iso ⟨render, h1, d2⟩) := by
  by_cases h : f.customer_name = "" ∨ f.customer_address = ""
  · simp only [processSubmission, if_pos h]
    refine ⟨?_, ?_, ?_, ?_, ?_⟩ <;> trivial
  · simp only [processSubmission, if_neg h]
    refine ⟨?_, ?_, ?_, ?_, ?_⟩ <;> trivial

/-- C6: every webhook delivery is a single POST (the submission makes at most
one, held in an `Option`); every POST made carries the document attachment
and `timeout=30`; hence its configured timeout equals 30 s in the
document-attached case and the 10 s data-only case never arises. -/
theorem webhook_timeout_bound (env : Env) (f : FormInput) (now_iso : String)
    (ext : ExternalOutcomes) (req : WebhookRequest)
    (h : webhookAttemptOf (processSubmission env f now_iso ext) = some req) :
    req.pdf.isSome = true ∧ req.timeoutSeconds = 30 ∧
    req.timeoutSeconds = (if req.pdf.isSome then 30 else 10) := by
  by_cases hv : f.customer_name = "" ∨ f.customer_address = ""
  · rw [processSubmission, if_pos hv] at h
    exact Option.noConfusion h
  · rw [processSubmission, if_neg hv] at h
    simp only [webhookAttemptOf] at h
    rw [webhookRequest] at h
    split at h
    · injection h with h
      subst h
      exact ⟨rfl, rfl, rfl⟩
    · exact Option.noConfusion h

/-- Witness for C6: the all-success concrete submission makes exactly the
demo POST, which attaches the document and sets a 30-second timeout. -/
theorem webhook_timeout_bound_witness :
    demoWebhookReq.pdf.isSome = true ∧ demoWebhookReq.timeoutSeconds = 30 ∧
    demoWebhookReq.timeoutSeconds = (if demoWebhookReq.pdf.isSome then 30 else 10) :=
  webhook_timeout_bound envBoth (mkFinInput 2 500 10) "2026-10-12T10:00:00"
    extAllOk demoWebhookReq rfl

/-- C7: for a submission that passes validation, the Drive upload is attempted
iff a (truthy) rendered document is present and credentials and a destination
folder ID are both configured; every attempt uploads the document bytes under
the deterministic name `invoice_<invoice_number>.pdf` with MIME
`application/pdf` into the configured folder; on success the result names the
external file ID and the `webViewLink` is surfaced, on error the result is
`failed` with the error message. -/
theorem drive_sink_contract (env : Env) (f : FormInput) (now_iso : String)
    (ext : ExternalOutcomes)
    (hname : f.customer_name ≠ "") (haddr : f.customer_address ≠ "") :
    (driveAttemptOf (processSubmission env f now_iso ext) ≠ none ↔
      truthyBytes ext.render.toOption = true ∧ env.gdrive_credentials = true ∧
        env.gdrive_folder_id ≠ "") ∧
    (∀ req, driveAttemptOf (processSubmission env f now_iso ext) = some req →
      req.name = "invoice_" ++ f.invoice_number ++ ".pdf" ∧
      req.mimetype = "application/pdf" ∧
      req.parents = [env.gdrive_folder_id] ∧
      req.data = ext.render.toOption.getD []) ∧
    (driveAttemptOf (processSubmission env f now_iso ext) ≠ none →
      (∀ fid link, ext.drive = .ok (fid, link) →
        driveReportOf (processSubmission env f now_iso ext) =
          some { sink_name := "Google Drive", status := .success,
                 detail := "✅ Uploaded to Google Drive! File ID: " ++ fid } ∧
        driveLinkOf (processSubmission env f now_iso ext) = some link) ∧
      (∀ msg, ext.drive = .error msg →
        driveReportOf (processSubmission env f now_iso ext) =
          some { sink_name := "Google Drive", status := .failed,
                 detail := "❌ Error uploading to Google Drive: " ++ msg })) := by
  have hv : ¬ (f.customer_name = "" ∨ f.customer_address = "") := by
    rintro (h | h)
    · exact hname h
    · exact haddr h
  simp only [processSubmission, if_neg hv, driveAttemptOf, driveReportOf, driveLinkOf]
  rw [driveUploadRequest]
  split
  case isTrue hc =>
    refine ⟨iff_of_true (Option.some_ne_none _) hc, ?_, ?_⟩
    · intro req hreq
      injection hreq with hreq
      subst hreq
      exact ⟨rfl, rfl, rfl, rfl⟩
    · intro _
      constructor
      · intro fid link hdrive
        rw [hdrive]
        exact ⟨rfl, rfl⟩
      · intro msg hdrive
        rw [hdrive]
        rfl
  case isFalse hc =>
    refine ⟨iff_of_false (fun hne => hne rfl) hc, ?_, ?_⟩
    · intro req hreq
      exact Option.noConfusion hreq
    · intro hne
      exact absurd rfl hne

/-- Witness for C7: the fully configured, all-success concrete submission
attempts the Drive upload and reports success with the file ID and link. -/
theorem drive_sink_contract_witness :
    driveAttemptOf (processSubmission envBoth (mkFinInput 2 500 10)
      "2026-10-12T10:00:00" extAllOk) ≠ none ∧
    driveReportOf (processSubmission envBoth (mkFinInput 2 500 10)
      "2026-10-12T10:00:00" extAllOk) =
      some { sink_name := "Google Drive", status := .success,
             detail := "✅ Uploaded to Google Drive! File ID: " ++ "file-id-1" } ∧
    driveLinkOf (processSubmission envBoth (mkFinInput 2 500 10)
      "2026-10-12T10:00:00" extAllOk) =
      some "https://drive.example.com/view/file-id-1" := by
  have h := drive_sink_contract envBoth (mkFinInput 2 500 10) "2026-10-12T10:00:00"
    extAllOk (by decide) (by decide)
  have hat : driveAttemptOf (processSubmission envBoth (mkFinInput 2 500 10)
      "2026-10-12T10:00:00" extAllOk) ≠ none :=
    h.1.mpr ⟨rfl, rfl, by decide⟩
  have hr := (h.2.2 hat).1 "file-id-1" "https://drive.example.com/view/file-id-1" rfl
  exact ⟨hat, hr.1, hr.2⟩

/-- Evaluation helper: `roundHalfEven` in the round-down case. -/
theorem roundHalfEven_eq_floor (q : ℚ) (f : ℤ) (hf : q.floor = f)
    (hr : q - f < 1/2) : roundHalfEven q = f := by
  simp only [roundHalfEven, hf]
  rw [if_pos hr]

/-- Evaluation helper: `formatCommas2` once the cent value is known. -/
theorem formatCommas2_eq_of_cents (q : ℚ) (c : ℤ)
    (h : roundHalfEven (q * 100) = c) :
    formatCommas2 q =
      (if c < 0 then "-" else "") ++
        String.mk (commaGroup (toString (c.natAbs / 100)).data.reverse).reverse ++
        "." ++ pad2 (c.natAbs % 100) := by
  simp only [formatCommas2, h]

/-- A `mkRat` numeral as a division, for `norm_num`. -/
theorem mkRat_as_div (n : ℤ) (d : ℕ) : mkRat n d = (n : ℚ) / d := by
  rw [Rat.mkRat_eq_divInt, Rat.divInt_eq_div]
  norm_cast

/-- The renderer only substitutes: the pre-formatted subtotal string appears
verbatim in the rendered document of every context. -/
theorem render_contains_subtotal (c : TemplateContext) :
    c.subtotal.data <:+: (renderInvoiceHtml c).data := by
  refine ⟨("<html><body style=color:" ++ c.color ++ ">" ++ c.company_name ++ " " ++
    c.invoice_number ++ " " ++ c.invoice_date ++ " " ++ c.customer_name ++ " " ++
    c.customer_address ++ " " ++ c.customer_email ++ " " ++ c.customer_phone ++
    " " ++ c.sales_agent ++ " " ++ c.product_type ++ " " ++ toString c.quantity ++
    " $" ++ c.price_per_unit ++ " $").data,
    (" " ++ c.tax_rate ++ "% $" ++ c.tax_amount ++ " $" ++ c.total ++ " " ++
      c.notes ++ "</body></html>").data, ?_⟩
  simp [renderInvoiceHtml, String.data_append, List.append_assoc]

/-- C8: the stored and transmitted record carries `subtotal`, `tax_amount`
and `total` exactly and unrounded (together with the exact line item), while
every currency field handed to the document template is the pre-formatted
2-decimal thousands-separated string of the corresponding value, and the
(spec-modelled) renderer only substitutes those strings into fixed fragments
— concretely, a one-eighth-dollar price yields the exact tax amount `1/80` in
the record but the rounded string "0.01" in the template, the subtotal 1000
is presented as "1,000.00", and the formatted subtotal string appears
verbatim in every rendered document. -/
theorem presentation_rounding_only (f : FormInput) (now_iso : String) :
    ((buildInvoiceData f now_iso).financial.subtotal = subtotal f ∧
      (buildInvoiceData f now_iso).financial.tax_amount = tax_amount f ∧
      (buildInvoiceData f now_iso).financial.total = total f ∧
      (buildInvoiceData f now_iso).items =
        [{ product_type := f.product_type, quantity := f.quantity,
           price_per_unit := f.price_per_unit, subtotal := subtotal f }]) ∧
    ((templateContext f).price_per_unit = formatCommas2 f.price_per_unit ∧
      (templateContext f).subtotal = formatCommas2 (subtotal f) ∧
      (templateContext f).tax_amount = formatCommas2 (tax_amount f) ∧
      (templateContext f).total = formatCommas2 (total f)) ∧
    ((buildInvoiceData (mkFinInput 1 (1/8) 10) now_iso).financial.tax_amount = 1/80 ∧
      (templateContext (mkFinInput 1 (1/8) 10)).tax_amount = "0.01" ∧
      (templateContext (mkFinInput 2 500 10)).subtotal = "1,000.00") ∧
    (∀ c : TemplateContext, c.subtotal.data <:+: (renderInvoiceHtml c).data) := by
  refine ⟨⟨rfl, rfl, rfl, rfl⟩, ⟨rfl, rfl, rfl, rfl⟩, ⟨?_, ?_, ?_⟩,
    render_contains_subtotal⟩
  · show tax_amount (mkFinInput 1 (1/8) 10) = 1/80
    norm_num [tax_amount, subtotal, mkFinInput]
  · show formatCommas2 (tax_amount (mkFinInput 1 (1/8) 10)) = "0.01"
    have hq : tax_amount (mkFinInput 1 (1/8) 10) * 100 = mkRat 5 4 := by
      rw [mkRat_as_div]
      norm_num [tax_amount, subtotal, mkFinInput]
    have hc : roundHalfEven (tax_amount (mkFinInput 1 (1/8) 10) * 100) = 1 := by
      rw [hq]
      refine roundHalfEven_eq_floor _ _ rfl ?_
      rw [mkRat_as_div]
      norm_num
    rw [formatCommas2_eq_of_cents _ 1 hc]
    decide
  · show formatCommas2 (subtotal (mkFinInput 2 500 10)) = "1,000.00"
    have hq : subtotal (mkFinInput 2 500 10) * 100 = mkRat 100000 1 := by
      rw [mkRat_as_div]
      norm_num [subtotal, mkFinInput]
    have hc : roundHalfEven (subtotal (mkFinInput 2 500 10) * 100) = 100000 := by
      rw [hq]
      refine roundHalfEven_eq_floor _ _ rfl ?_
      rw [mkRat_as_div]
      norm_num
    rw [formatCommas2_eq_of_cents _ 100000 hc]
    decide

/-- Round trip of the company sub-object through its JSON shape. -/
theorem companyInfo_roundtrip (c : CompanyInfo) :
    CompanyInfo.fromJson c.toJson = some c := rfl

/-- Round trip of the customer sub-object through its JSON shape. -/
theorem customerInfo_roundtrip (c : CustomerInfo) :
    CustomerInfo.fromJson c.toJson = some c := rfl

/-- Round trip of the financial sub-object through its JSON shape. -/
theorem financial_roundtrip (fin : Financial) :
    Financial.fromJson fin.toJson = some fin := rfl

/-- Round trip of one line item through its JSON shape. -/
theorem lineItem_roundtrip (it : LineItem) :
    LineItem.fromJson it.toJson = some it := by
  simp [LineItem.toJson, LineItem.fromJson, Json.getField, Json.asString,
    Json.asNum, Json.asNat, List.lookup]

/-- Round trip of the item list through its JSON shape. -/
theorem decodeItems_map_toJson (items : List LineItem) :
    decodeItems (items.map LineItem.toJson) = some items := by
  induction items with
  | nil => rfl
  | cons a as ih => simp [decodeItems, lineItem_roundtrip a, ih]

/-- C9: serializing an InvoiceRecord to its JSON shape and deserializing the
result yields a record equal to the original field for field. -/
theorem invoice_record_json_roundtrip (r : InvoiceRecord) :
    InvoiceRecord.fromJson r.toJson = some r := by
  cases r with
  | mk inum idate agent comp cust items fin nts gen =>
      simp [InvoiceRecord.toJson, InvoiceRecord.fromJson, Json.getField,
        Json.asString, List.lookup, companyInfo_roundtrip,
        customerInfo_roundtrip, financial_roundtrip,
        decodeItems_map_toJson]

/-- C10: every numeric triple passing the input boundary satisfies
`quantity` in [1, 1000], `price_per_unit` in [0.01, 1000000.00] and
`tax_rate` in [0, 20]; in particular `price_per_unit` is strictly positive,
so a zero-priced invoice can never be constructed even though the data model
itself only demands a non-negative price. -/
theorem input_boundary_bounds (r s : RawWidgetValues)
    (h : formBoundary r = some s) :
    1 ≤ s.quantity ∧ s.quantity ≤ 1000 ∧
    1/100 ≤ s.price_per_unit ∧ s.price_per_unit ≤ 1000000 ∧
    0 < s.price_per_unit ∧
    0 ≤ s.tax_rate ∧ s.tax_rate ≤ 20 := by
  rw [formBoundary] at h
  split at h
  case isTrue hc =>
    injection h with h
    subst h
    obtain ⟨h1, h2, h3⟩ := hc
    simp only [widgetAccepts, Bool.and_eq_true, decide_eq_true_eq] at h1 h2 h3
    refine ⟨?_, ?_, h2.1, h2.2, lt_of_lt_of_le (by norm_num) h2.1, h3.1, h3.2⟩
    · exact_mod_cast h1.1
    · exact_mod_cast h1.2
  case isFalse => exact Option.noConfusion h

/-- Witness for C10 at the concrete triple (quantity 2, price 500,
tax rate 10). -/
theorem input_boundary_bounds_witness :
    1 ≤ (RawWidgetValues.mk 2 500 10).quantity ∧
    (RawWidgetValues.mk 2 500 10).quantity ≤ 1000 ∧
    1/100 ≤ (RawWidgetValues.mk 2 500 10).price_per_unit ∧
    (RawWidgetValues.mk 2 500 10).price_per_unit ≤ 1000000 ∧
    0 < (RawWidgetValues.mk 2 500 10).price_per_unit ∧
    0 ≤ (RawWidgetValues.mk 2 500 10).tax_rate ∧
    (RawWidgetValues.mk 2 500 10).tax_rate ≤ 20 :=
  input_boundary_bounds (RawWidgetValues.mk 2 500 10) (RawWidgetValues.mk 2 500 10)
    (by norm_num [formBoundary, widgetAccepts])
